import Mathlib

/-!
Shallow embedding of `buildCanvasSDXLOutpaintGraph.ts`
(InvokeAI frontend, Canvas SDXL outpaint graph builder) together with the
structural graph properties its specification describes.

Node-id string constants come from `constants.ts`, which only exports opaque
distinct string literals; their concrete values are irrelevant to every
property below, only their distinctness matters.
-/

/-- Node-id constant from constants.ts. -/
def SDXL_MODEL_LOADER : String := "sdxl_model_loader"

/-- Node-id constant from constants.ts. -/
def POSITIVE_CONDITIONING : String := "positive_conditioning"

/-- Node-id constant from constants.ts. -/
def NEGATIVE_CONDITIONING : String := "negative_conditioning"

/-- Node-id constant from constants.ts. -/
def INPAINT_INFILL : String := "inpaint_infill"

/-- Node-id constant from constants.ts. -/
def INPAINT_IMAGE : String := "inpaint_image"

/-- Node-id constant from constants.ts. -/
def MASK_FROM_ALPHA : String := "tomask"

/-- Node-id constant from constants.ts. -/
def MASK_COMBINE : String := "mask_combine"

/-- Node-id constant from constants.ts. -/
def MASK_BLUR : String := "mask_blur"

/-- Node-id constant from constants.ts. -/
def NOISE : String := "noise"

/-- Node-id constant from constants.ts. -/
def INPAINT : String := "inpaint"

/-- Node-id constant from constants.ts. -/
def LATENTS_TO_IMAGE : String := "latents_to_image"

/-- Node-id constant from constants.ts. -/
def COLOR_CORRECT : String := "color_correct"

/-- Node-id constant from constants.ts. -/
def CANVAS_OUTPUT : String := "canvas_output"

/-- Node-id constant from constants.ts. -/
def RANGE_OF_SIZE : String := "range_of_size"

/-- Node-id constant from constants.ts. -/
def ITERATE : String := "iterate"

/-- Node-id constant from constants.ts. -/
def RANDOM_INT : String := "rand_int"

/-- Graph-id constant from constants.ts. -/
def INPAINT_GRAPH : String := "inpaint_graph"

/-- One endpoint of an edge: a node id and a port (field) name. -/
structure EdgeEndpoint where
  node_id : String
  field : String
deriving DecidableEq, BEq

/-- A directed edge from a source output port to a destination input port. -/
structure Edge where
  source : EdgeEndpoint
  destination : EdgeEndpoint
deriving DecidableEq, BEq

/-- The tagged union of node variants appearing in the outpaint graph.
Numeric generation parameters (guidance scale, strength, denoising
fractions) are modelled as rationals; counts and sizes as naturals.
`stage_node` stands for the externally contributed node variants that the
augmentation stages may splice in (refiner, LoRA, ControlNet, VAE, NSFW
filter, watermark); the assembler itself never constructs one. -/
inductive Node where
  | sdxl_model_loader (id : String) (model : String)
  | sdxl_compel_prompt (id : String) (prompt : String) (style : String)
  | infill_tile (id : String) (is_intermediate : Bool) (image : String) (tile_size : Nat)
  | infill_patchmatch (id : String) (is_intermediate : Bool) (image : String)
  | i2l (id : String) (is_intermediate : Bool) (fp32 : Bool)
  | tomask (id : String) (is_intermediate : Bool) (image : String)
  | mask_combine (id : String) (is_intermediate : Bool) (mask2 : Option String)
  | img_blur (id : String) (is_intermediate : Bool) (radius : Nat) (blur_type : String)
  | noise (id : String) (width : Nat) (height : Nat) (use_cpu : Bool) (is_intermediate : Bool)
  | denoise_latents (id : String) (is_intermediate : Bool) (steps : Nat) (cfg_scale : ℚ)
      (scheduler : String) (denoising_start : ℚ) (denoising_end : ℚ)
  | l2i (id : String) (is_intermediate : Bool) (fp32 : Bool)
  | color_correct (id : String) (is_intermediate : Bool)
  | img_paste (id : String) (is_intermediate : Bool)
  | range_of_size (id : String) (is_intermediate : Bool) (start : Option Nat) (size : Nat) (step : Nat)
  | iterate (id : String) (is_intermediate : Bool)
  | rand_int (id : String)
  | stage_node (id : String) (tag : String)
deriving DecidableEq, BEq

/-- The `id` field every node object carries (duplicating its map key). -/
def Node.id : Node → String
  | .sdxl_model_loader i _ => i
  | .sdxl_compel_prompt i _ _ => i
  | .infill_tile i _ _ _ => i
  | .infill_patchmatch i _ _ => i
  | .i2l i _ _ => i
  | .tomask i _ _ => i
  | .mask_combine i _ _ => i
  | .img_blur i _ _ _ => i
  | .noise i _ _ _ _ => i
  | .denoise_latents i _ _ _ _ _ _ => i
  | .l2i i _ _ => i
  | .color_correct i _ => i
  | .img_paste i _ => i
  | .range_of_size i _ _ _ _ => i
  | .iterate i _ => i
  | .rand_int i => i
  | .stage_node i _ => i

/-- Is this node one of the two infill variants? -/
def Node.isInfillVariant : Node → Bool
  | .infill_tile _ _ _ _ => true
  | .infill_patchmatch _ _ _ => true
  | _ => false

/-- The graph: id, node map (an association list in JS-object insertion
order) and an ordered edge sequence. -/
structure Graph where
  id : String
  nodes : List (String × Node)
  edges : List Edge
deriving DecidableEq, BEq

/-- Look a node up by its map key. -/
def Graph.findNode (g : Graph) (nid : String) : Option Node :=
  (g.nodes.find? (fun p => p.1 == nid)).map Prod.snd

/-- Does a node with this key exist? -/
def Graph.hasNode (g : Graph) (nid : String) : Bool :=
  g.nodes.any (fun p => p.1 == nid)

/-- JS object assignment `graph.nodes[k] = n`: overwrite if present,
append otherwise. -/
def Graph.setNode (g : Graph) (nid : String) (n : Node) : Graph :=
  if g.nodes.any (fun p => p.1 == nid) then
    { g with nodes := g.nodes.map (fun p => if p.1 == nid then (nid, n) else p) }
  else
    { g with nodes := g.nodes ++ [(nid, n)] }

/-- `graph.edges.push(e)`: unconditional append, with no duplicate check. -/
def Graph.pushEdge (g : Graph) (e : Edge) : Graph :=
  { g with edges := g.edges ++ [e] }

/-- `(graph.nodes[RANGE_OF_SIZE] as RangeOfSizeInvocation).start = seed`. -/
def Node.setStart (n : Node) (s : Nat) : Node :=
  match n with
  | .range_of_size i inter _ size step => .range_of_size i inter (some s) size step
  | other => other

/-- Set the `start` field of the node stored at the given key. -/
def Graph.setRangeStart (g : Graph) (nid : String) (s : Nat) : Graph :=
  { g with nodes := g.nodes.map (fun p => if p.1 == nid then (p.1, p.2.setStart s) else p) }

/-- `state.generation` — the slice of the Redux store the builder reads. -/
structure GenerationState where
  positivePrompt : String
  negativePrompt : String
  model : Option String
  cfgScale : ℚ
  scheduler : String
  steps : Nat
  img2imgStrength : ℚ
  shouldFitToWidthHeight : Bool
  iterations : Nat
  seed : Nat
  shouldRandomizeSeed : Bool
  vaePrecision : String
  shouldUseNoiseSettings : Bool
  shouldUseCpuNoise : Bool
  maskBlur : Nat
  maskBlurMethod : String
  tileSize : Nat
  infillMethod : String
  width : Nat
  height : Nat
deriving DecidableEq

/-- `state.sdxl`. -/
structure SDXLState where
  positiveStylePrompt : String
  negativeStylePrompt : String
  shouldConcatSDXLStylePrompt : Bool
  shouldUseSDXLRefiner : Bool
  refinerStart : ℚ
deriving DecidableEq

/-- Width and height of the active bounding box. -/
structure BoundingBox where
  width : Nat
  height : Nat
deriving DecidableEq

/-- `state.canvas`. -/
structure CanvasState where
  boundingBoxDimensions : BoundingBox
  scaledBoundingBoxDimensions : BoundingBox
  boundingBoxScaleMethod : String
  shouldAutoSave : Bool
deriving DecidableEq

/-- `state.system`. -/
structure SystemState where
  shouldUseNSFWChecker : Bool
  shouldUseWatermarker : Bool
deriving DecidableEq

/-- The Redux root state, restricted to the slices the builder reads. -/
structure RootState where
  generation : GenerationState
  sdxl : SDXLState
  canvas : CanvasState
  system : SystemState
deriving DecidableEq

/-- The external augmentation-stage collaborators: each mutates the graph
given the state and one or two anchor node ids. Their implementations live
outside this file's source; the builder is parameterized over them. -/
structure Stages where
  addSDXLRefinerToGraph : RootState → Graph → String → Graph
  addVAEToGraph : RootState → Graph → String → Graph
  addSDXLLoRAsToGraph : RootState → Graph → String → String → Graph
  addControlNetToLinearGraph : RootState → Graph → String → Graph
  addNSFWCheckerToGraph : RootState → Graph → String → Graph
  addWatermarkerToGraph : RootState → Graph → String → Graph

/-- The fixed wiring of the base topology: the `edges` literal of the
graph object, in source order. It mentions only node-id and port
constants, no configuration data. -/
def baseEdges : List Edge :=
  [
    ⟨⟨SDXL_MODEL_LOADER, "unet"⟩, ⟨INPAINT, "unet"⟩⟩,
    ⟨⟨SDXL_MODEL_LOADER, "clip"⟩, ⟨POSITIVE_CONDITIONING, "clip"⟩⟩,
    ⟨⟨SDXL_MODEL_LOADER, "clip2"⟩, ⟨POSITIVE_CONDITIONING, "clip2"⟩⟩,
    ⟨⟨SDXL_MODEL_LOADER, "clip"⟩, ⟨NEGATIVE_CONDITIONING, "clip"⟩⟩,
    ⟨⟨SDXL_MODEL_LOADER, "clip2"⟩, ⟨NEGATIVE_CONDITIONING, "clip2"⟩⟩,
    ⟨⟨INPAINT_INFILL, "image"⟩, ⟨INPAINT_IMAGE, "image"⟩⟩,
    ⟨⟨MASK_FROM_ALPHA, "mask"⟩, ⟨MASK_COMBINE, "mask1"⟩⟩,
    ⟨⟨MASK_COMBINE, "image"⟩, ⟨MASK_BLUR, "image"⟩⟩,
    ⟨⟨POSITIVE_CONDITIONING, "conditioning"⟩, ⟨INPAINT, "positive_conditioning"⟩⟩,
    ⟨⟨NEGATIVE_CONDITIONING, "conditioning"⟩, ⟨INPAINT, "negative_conditioning"⟩⟩,
    ⟨⟨NOISE, "noise"⟩, ⟨INPAINT, "noise"⟩⟩,
    ⟨⟨INPAINT_IMAGE, "latents"⟩, ⟨INPAINT, "latents"⟩⟩,
    ⟨⟨MASK_BLUR, "image"⟩, ⟨INPAINT, "mask"⟩⟩,
    ⟨⟨RANGE_OF_SIZE, "collection"⟩, ⟨ITERATE, "collection"⟩⟩,
    ⟨⟨ITERATE, "item"⟩, ⟨NOISE, "seed"⟩⟩,
    ⟨⟨INPAINT, "latents"⟩, ⟨LATENTS_TO_IMAGE, "latents"⟩⟩,
    ⟨⟨INPAINT_INFILL, "image"⟩, ⟨COLOR_CORRECT, "reference"⟩⟩,
    ⟨⟨LATENTS_TO_IMAGE, "image"⟩, ⟨COLOR_CORRECT, "image"⟩⟩,
    ⟨⟨MASK_BLUR, "image"⟩, ⟨COLOR_CORRECT, "mask"⟩⟩,
    ⟨⟨INPAINT_INFILL, "image"⟩, ⟨CANVAS_OUTPUT, "base_image"⟩⟩,
    ⟨⟨COLOR_CORRECT, "image"⟩, ⟨CANVAS_OUTPUT, "image"⟩⟩,
    ⟨⟨MASK_BLUR, "image"⟩, ⟨CANVAS_OUTPUT, "mask"⟩⟩
  ]

/-- The base topology: the graph object literal of
`buildCanvasSDXLOutpaintGraph`, nodes in declaration order and edges in
source order. -/
def baseGraph (state : RootState) (model : String)
    (canvasInitImage : String) (canvasMaskImage : Option String) : Graph :=
  let use_cpu : Bool :=
    if state.generation.shouldUseNoiseSettings then state.generation.shouldUseCpuNoise
    else state.generation.shouldUseCpuNoise
  let infillNode : Node :=
    if state.generation.infillMethod == "patchmatch" then
      Node.infill_patchmatch INPAINT_INFILL true canvasInitImage
    else
      Node.infill_tile INPAINT_INFILL true canvasInitImage state.generation.tileSize
  { id := INPAINT_GRAPH
    nodes := [
      (SDXL_MODEL_LOADER, Node.sdxl_model_loader SDXL_MODEL_LOADER model),
      (POSITIVE_CONDITIONING, Node.sdxl_compel_prompt POSITIVE_CONDITIONING
        state.generation.positivePrompt
        (if state.sdxl.shouldConcatSDXLStylePrompt then
          state.generation.positivePrompt ++ " " ++ state.sdxl.positiveStylePrompt
        else state.sdxl.positiveStylePrompt)),
      (NEGATIVE_CONDITIONING, Node.sdxl_compel_prompt NEGATIVE_CONDITIONING
        state.generation.negativePrompt
        (if state.sdxl.shouldConcatSDXLStylePrompt then
          state.generation.negativePrompt ++ " " ++ state.sdxl.negativeStylePrompt
        else state.sdxl.negativeStylePrompt)),
      (infillNode.id, infillNode),
      (INPAINT_IMAGE, Node.i2l INPAINT_IMAGE true (state.generation.vaePrecision == "fp32")),
      (MASK_FROM_ALPHA, Node.tomask MASK_FROM_ALPHA true canvasInitImage),
      (MASK_COMBINE, Node.mask_combine MASK_COMBINE true canvasMaskImage),
      (MASK_BLUR, Node.img_blur MASK_BLUR true state.generation.maskBlur
        state.generation.maskBlurMethod),
      (NOISE, Node.noise NOISE state.canvas.boundingBoxDimensions.width
        state.canvas.boundingBoxDimensions.height use_cpu true),
      (INPAINT, Node.denoise_latents INPAINT true state.generation.steps
        state.generation.cfgScale state.generation.scheduler
        (1 - state.generation.img2imgStrength)
        (if state.sdxl.shouldUseSDXLRefiner then state.sdxl.refinerStart else 1)),
      (LATENTS_TO_IMAGE, Node.l2i LATENTS_TO_IMAGE true
        (state.generation.vaePrecision == "fp32")),
      (COLOR_CORRECT, Node.color_correct COLOR_CORRECT true),
      (CANVAS_OUTPUT, Node.img_paste CANVAS_OUTPUT true),
      (RANGE_OF_SIZE, Node.range_of_size RANGE_OF_SIZE true none
        state.generation.iterations 1),
      (ITERATE, Node.iterate ITERATE true)
    ]
    edges := baseEdges }

/-- The seed-handling block: either splice in a `rand_int` node wired to
the range generator's `start` port, or set the literal `start` field. -/
def handleSeed (state : RootState) (g : Graph) : Graph :=
  if state.generation.shouldRandomizeSeed then
    (g.setNode RANDOM_INT (Node.rand_int RANDOM_INT)).pushEdge
      ⟨⟨RANDOM_INT, "a"⟩, ⟨RANGE_OF_SIZE, "start"⟩⟩
  else
    g.setRangeStart RANGE_OF_SIZE state.generation.seed

/-- The straight-line body of `buildCanvasSDXLOutpaintGraph` after the
model-presence check: base topology, then the augmentation stages in the
source's fixed call order. -/
def buildWithModel (stages : Stages) (state : RootState) (model : String)
    (canvasInitImage : String) (canvasMaskImage : Option String) : Graph :=
  let g0 := baseGraph state model canvasInitImage canvasMaskImage
  let g1 := if state.sdxl.shouldUseSDXLRefiner then
      stages.addSDXLRefinerToGraph state g0 INPAINT
    else g0
  let g2 := stages.addVAEToGraph state g1 SDXL_MODEL_LOADER
  let g3 := handleSeed state g2
  let g4 := stages.addSDXLLoRAsToGraph state g3 INPAINT SDXL_MODEL_LOADER
  let g5 := stages.addControlNetToLinearGraph state g4 INPAINT
  let g6 := if state.system.shouldUseNSFWChecker then
      stages.addNSFWCheckerToGraph state g5 CANVAS_OUTPUT
    else g5
  let g7 := if state.system.shouldUseWatermarker then
      stages.addWatermarkerToGraph state g6 CANVAS_OUTPUT
    else g6
  g7

/-- `buildCanvasSDXLOutpaintGraph`: fails iff the selected model is absent
(`throw new Error('No model found in state')`), otherwise runs the
straight-line assembly and returns the graph directly. -/
def buildCanvasSDXLOutpaintGraph (stages : Stages) (state : RootState)
    (canvasInitImage : String) (canvasMaskImage : Option String) :
    Except String Graph :=
  match state.generation.model with
  | none => Except.error "No model found in state"
  | some model =>
    Except.ok (buildWithModel stages state model canvasInitImage canvasMaskImage)

/-- Identity stages: every external augmentation stage leaves the graph
unchanged, isolating the nodes and edges the assembler adds itself. -/
def idStages : Stages where
  addSDXLRefinerToGraph := fun _ g _ => g
  addVAEToGraph := fun _ g _ => g
  addSDXLLoRAsToGraph := fun _ g _ _ => g
  addControlNetToLinearGraph := fun _ g _ => g
  addNSFWCheckerToGraph := fun _ g _ => g
  addWatermarkerToGraph := fun _ g _ => g


/-- Are the elements of the list pairwise distinct (by `==`)? -/
def allDistinct {α : Type} [BEq α] : List α → Bool
  | [] => true
  | x :: xs => !xs.contains x && allDistinct xs

/-- The node-id keys of the graph's node map. -/
def nodeIdKeys (g : Graph) : List String :=
  g.nodes.map Prod.fst

/-- Validator check: node-id uniqueness. -/
def uniqueIds (g : Graph) : Bool :=
  allDistinct (nodeIdKeys g)

/-- Validator check: every edge endpoint names a node present in the map. -/
def endpointsOk (g : Graph) : Bool :=
  g.edges.all (fun e =>
    (nodeIdKeys g).contains e.source.node_id &&
    (nodeIdKeys g).contains e.destination.node_id)

/-- Validator check: at most one edge writes a given destination port. -/
def uniqueDestinations (g : Graph) : Bool :=
  allDistinct (g.edges.map Edge.destination)

/-- One round of Kahn's algorithm driven by explicit fuel: repeatedly
strip the nodes with no incoming edge; succeed when none remain. -/
def topoAux : Nat → List String → List Edge → Bool
  | 0, remaining, _ => remaining.isEmpty
  | fuel + 1, remaining, edges =>
    if remaining.isEmpty then true
    else
      let srcs := remaining.filter (fun n =>
        !edges.any (fun e => e.destination.node_id == n))
      if srcs.isEmpty then false
      else
        topoAux fuel (remaining.filter (fun n => !srcs.contains n))
          (edges.filter (fun e => !srcs.contains e.source.node_id))

/-- Validator check: the edge set admits a topological sort. -/
def isAcyclic (g : Graph) : Bool :=
  topoAux (nodeIdKeys g).length (nodeIdKeys g) g.edges

/-- Validator check: the mandatory anchor nodes are present (model loader,
both conditioning encoders, final composite output). -/
def anchorsPresent (g : Graph) : Bool :=
  g.hasNode SDXL_MODEL_LOADER && g.hasNode POSITIVE_CONDITIONING &&
  g.hasNode NEGATIVE_CONDITIONING && g.hasNode CANVAS_OUTPUT

/-- Modelled from the spec: the Graph Validator
(`validate(graph) -> Result<(), GraphValidationError)`, checking node-id
uniqueness, edge-endpoint resolvability, single writer per destination
port, acyclicity via topological sort, and anchor presence, returning the
first violation). No such validator exists anywhere in the source of
`buildCanvasSDXLOutpaintGraph`. -/
def validateGraph (g : Graph) : Except String Unit :=
  if !uniqueIds g then Except.error "GraphValidationError: duplicate node id"
  else if !endpointsOk g then Except.error "GraphValidationError: unresolvable edge endpoint"
  else if !uniqueDestinations g then Except.error "GraphValidationError: multiple writers for a destination port"
  else if !isAcyclic g then Except.error "GraphValidationError: cycle detected"
  else if !anchorsPresent g then Except.error "GraphValidationError: missing anchor node"
  else Except.ok ()

/-- A concrete generation-state slice used in witnesses. -/
def gen0 : GenerationState where
  positivePrompt := "a lighthouse"
  negativePrompt := "blurry"
  model := some "sdxl-base-1.0"
  cfgScale := 7
  scheduler := "euler"
  steps := 30
  img2imgStrength := 7/10
  shouldFitToWidthHeight := true
  iterations := 4
  seed := 42
  shouldRandomizeSeed := false
  vaePrecision := "fp32"
  shouldUseNoiseSettings := false
  shouldUseCpuNoise := true
  maskBlur := 16
  maskBlurMethod := "box"
  tileSize := 32
  infillMethod := "tile"
  width := 512
  height := 512

/-- A concrete root state used in witnesses. -/
def state0 : RootState where
  generation := gen0
  sdxl := {
    positiveStylePrompt := "photo"
    negativeStylePrompt := "sketch"
    shouldConcatSDXLStylePrompt := true
    shouldUseSDXLRefiner := false
    refinerStart := 8/10 }
  canvas := {
    boundingBoxDimensions := ⟨576, 768⟩
    scaledBoundingBoxDimensions := ⟨1152, 1536⟩
    boundingBoxScaleMethod := "auto"
    shouldAutoSave := false }
  system := {
    shouldUseNSFWChecker := true
    shouldUseWatermarker := true }

/-- `state0` with the selected model removed. -/
def stateNoModel : RootState :=
  { state0 with generation := { gen0 with model := none } }

/-- Replace only the configured infill method. -/
def setInfillMethod (st : RootState) (m : String) : RootState :=
  { st with generation := { st.generation with infillMethod := m } }

/-- Replace only the noise-settings override flag. -/
def setUseNoiseSettings (st : RootState) (b : Bool) : RootState :=
  { st with generation := { st.generation with shouldUseNoiseSettings := b } }

/-- Replace only the generic generation width/height parameters. -/
def setGenerationSize (st : RootState) (w h : Nat) : RootState :=
  { st with generation := { st.generation with width := w, height := h } }

/-- Stages where the VAE stage (like any in-place graph mutator may)
pushes an edge that closes a dependency cycle, producing a graph the
spec's validator rejects. -/
def badStages : Stages :=
  { idStages with
    addVAEToGraph := fun _ g _ =>
      g.pushEdge ⟨⟨INPAINT, "latents"⟩, ⟨INPAINT, "latents"⟩⟩ }

/-- Stages where the ControlNet stage pushes a second edge onto the
already-written destination port `(INPAINT, unet)`, exactly as
`graph.edges.push` permits. -/
def dupStages : Stages :=
  { idStages with
    addControlNetToLinearGraph := fun _ g _ =>
      g.pushEdge ⟨⟨NOISE, "noise"⟩, ⟨INPAINT, "unet"⟩⟩ }

/-- Append a marker node recording that a stage ran. -/
def appendMarker (g : Graph) (tag : String) : Graph :=
  { g with nodes := g.nodes ++ [(tag, Node.stage_node tag tag)] }

/-- Recorder stages: each augmentation stage appends a marker node named
after itself, so the tail of the node map records the exact invocation
order of the external stages. -/
def recorderStages : Stages where
  addSDXLRefinerToGraph := fun _ g _ => appendMarker g "addSDXLRefinerToGraph"
  addVAEToGraph := fun _ g _ => appendMarker g "addVAEToGraph"
  addSDXLLoRAsToGraph := fun _ g _ _ => appendMarker g "addSDXLLoRAsToGraph"
  addControlNetToLinearGraph := fun _ g _ => appendMarker g "addControlNetToLinearGraph"
  addNSFWCheckerToGraph := fun _ g _ => appendMarker g "addNSFWCheckerToGraph"
  addWatermarkerToGraph := fun _ g _ => appendMarker g "addWatermarkerToGraph"

/-- The node-map keys of the base topology, in declaration order. -/
def baseNodeIds : List String :=
  [SDXL_MODEL_LOADER, POSITIVE_CONDITIONING, NEGATIVE_CONDITIONING,
   INPAINT_INFILL, INPAINT_IMAGE, MASK_FROM_ALPHA, MASK_COMBINE, MASK_BLUR,
   NOISE, INPAINT, LATENTS_TO_IMAGE, COLOR_CORRECT, CANVAS_OUTPUT,
   RANGE_OF_SIZE, ITERATE]

/-- With identity stages the builder's output is exactly the base topology
with seed handling applied. -/
theorem idStages_eq (state : RootState) (model canvasInitImage : String)
    (canvasMaskImage : Option String) :
    buildWithModel idStages state model canvasInitImage canvasMaskImage =
      handleSeed state (baseGraph state model canvasInitImage canvasMaskImage) := by
  simp only [buildWithModel, idStages, ite_self]

/-- The node-map keys of the assembler's own graph: the base keys, plus
the random-integer node exactly when the randomize flag is set. -/
theorem assembler_keys (st : RootState) (m img : String) (mask : Option String) :
    nodeIdKeys (handleSeed st (baseGraph st m img mask)) =
      baseNodeIds ++
        (if st.generation.shouldRandomizeSeed then [RANDOM_INT] else []) := by
  cases hm : st.generation.infillMethod == "patchmatch" <;>
  cases hr : st.generation.shouldRandomizeSeed <;>
  simp only [handleSeed, baseGraph, nodeIdKeys, Graph.setNode, Graph.pushEdge,
    Graph.setRangeStart, hm, hr, reduceIte] <;> rfl

/-- The edges of the assembler's own graph: the fixed base wiring, plus
the seed edge exactly when the randomize flag is set. -/
theorem assembler_edges (st : RootState) (m img : String) (mask : Option String) :
    (handleSeed st (baseGraph st m img mask)).edges =
      baseEdges ++
        (if st.generation.shouldRandomizeSeed then
          [⟨⟨RANDOM_INT, "a"⟩, ⟨RANGE_OF_SIZE, "start"⟩⟩] else []) := by
  cases hm : st.generation.infillMethod == "patchmatch" <;>
  cases hr : st.generation.shouldRandomizeSeed <;>
  simp only [handleSeed, baseGraph, Graph.setNode, Graph.pushEdge,
    Graph.setRangeStart, hm, hr, reduceIte] <;> rfl

/-- The builder in eliminator form: the selected model is the only failure
gate, and the stage-composition output is returned directly. -/
theorem build_eq_elim (stages : Stages) (st : RootState) (img : String)
    (mask : Option String) :
    buildCanvasSDXLOutpaintGraph stages st img mask =
      st.generation.model.elim (Except.error "No model found in state")
        (fun m => Except.ok (buildWithModel stages st m img mask)) := by
  cases h : st.generation.model <;>
    simp [buildCanvasSDXLOutpaintGraph, h]

/-- Claim C1 (counterexample): an augmentation stage closes a dependency
cycle, so the finished graph fails the spec's structural validation, yet
`buildCanvasSDXLOutpaintGraph` still returns it — no validator runs before
the graph is handed to the caller. -/
theorem c1_invalid_graph_returned :
    buildCanvasSDXLOutpaintGraph badStages state0 "init" none =
      Except.ok (buildWithModel badStages state0 "sdxl-base-1.0" "init" none)
    ∧ (validateGraph
        (buildWithModel badStages state0 "sdxl-base-1.0" "init" none)).isOk = false :=
  ⟨rfl, rfl⟩

/-- Claim C1 (amended): after the base topology and the augmentation
stages, the assembler returns the resulting graph directly; the only
failure is the up-front model-presence check, and no structural validator
runs between the last stage and the return. -/
theorem c1_graph_returned_without_validation (stages : Stages) (st : RootState)
    (img : String) (mask : Option String) :
    buildCanvasSDXLOutpaintGraph stages st img mask =
      st.generation.model.elim (Except.error "No model found in state")
        (fun m => Except.ok (buildWithModel stages st m img mask)) :=
  build_eq_elim stages st img mask

/-- Claim C2 (counterexample): a second edge pushed onto the
already-written destination port `(inpaint, unet)` is appended silently —
the build succeeds and both edges coexist in the finished graph. -/
theorem c2_duplicate_destination_coexists :
    buildCanvasSDXLOutpaintGraph dupStages state0 "init" none =
      Except.ok (buildWithModel dupStages state0 "sdxl-base-1.0" "init" none)
    ∧ ((buildWithModel dupStages state0 "sdxl-base-1.0" "init" none).edges.filter
        (fun e => e.destination == EdgeEndpoint.mk INPAINT "unet")).length = 2 :=
  ⟨rfl, rfl⟩

/-- Claim C2 (amended): every edge the assembler itself adds (base
topology plus seed wiring) has a distinct destination port, so the graph
the assembler's own code produces has at most one writer per destination;
duplicate writes are not detected as errors, they would simply coexist. -/
theorem c2_assembler_unique_destinations (st : RootState) (m img : String)
    (mask : Option String) :
    uniqueDestinations (buildWithModel idStages st m img mask) = true := by
  rw [idStages_eq]
  cases hr : st.generation.shouldRandomizeSeed <;>
  simp only [uniqueDestinations, assembler_edges, hr, reduceIte] <;> decide

/-- Claim C3: if the configuration's selected model is absent the builder
fails with the configuration error and produces no graph object, and for
every configuration with a model present it is total and returns a
graph. -/
theorem c3_missing_model_errors (stages : Stages) (st : RootState)
    (img : String) (mask : Option String) :
    (st.generation.model = none →
      buildCanvasSDXLOutpaintGraph stages st img mask =
        Except.error "No model found in state")
    ∧ (∀ m, st.generation.model = some m →
      buildCanvasSDXLOutpaintGraph stages st img mask =
        Except.ok (buildWithModel stages st m img mask)) := by
  constructor
  · intro h
    simp [buildCanvasSDXLOutpaintGraph, h]
  · intro m h
    simp [buildCanvasSDXLOutpaintGraph, h]

/-- Claim C3 (witness): at a concrete configuration with no model the
builder errors, and at one with a model it returns a graph. -/
theorem c3_missing_model_errors_witness :
    buildCanvasSDXLOutpaintGraph idStages stateNoModel "init" none =
      Except.error "No model found in state"
    ∧ buildCanvasSDXLOutpaintGraph idStages state0 "init" none =
      Except.ok (buildWithModel idStages state0 "sdxl-base-1.0" "init" none) :=
  ⟨(c3_missing_model_errors idStages stateNoModel "init" none).1 rfl,
   (c3_missing_model_errors idStages state0 "init" none).2 "sdxl-base-1.0" rfl⟩

/-- Claim C4: the denoiser node's `denoising_start` is `1 - strength` and
its `denoising_end` is the refiner hand-off fraction when the refiner flag
is set and `1` otherwise. -/
theorem c4_denoising_fraction_bounds (st : RootState) (m img : String)
    (mask : Option String) :
    (buildWithModel idStages st m img mask).findNode INPAINT =
      some (Node.denoise_latents INPAINT true st.generation.steps
        st.generation.cfgScale st.generation.scheduler
        (1 - st.generation.img2imgStrength)
        (if st.sdxl.shouldUseSDXLRefiner then st.sdxl.refinerStart else 1)) := by
  rw [idStages_eq]
  cases hm : st.generation.infillMethod == "patchmatch" <;>
  cases hr : st.generation.shouldRandomizeSeed <;>
  simp only [handleSeed, baseGraph, hm, hr, reduceIte] <;> rfl

/-- Claim C5: the range generator has size equal to the iteration count
and step 1; with the randomize flag set its `start` is unset, a
random-integer node exists and its output is wired to the range
generator's `start` port; with the flag unset `start` is the literal seed
and neither the random-integer node nor that edge exists. -/
theorem c5_seed_strategy (st : RootState) (m img : String)
    (mask : Option String) :
    (buildWithModel idStages st m img mask).findNode RANGE_OF_SIZE =
      some (Node.range_of_size RANGE_OF_SIZE true
        (if st.generation.shouldRandomizeSeed then none else some st.generation.seed)
        st.generation.iterations 1)
    ∧ (buildWithModel idStages st m img mask).hasNode RANDOM_INT =
        st.generation.shouldRandomizeSeed
    ∧ (buildWithModel idStages st m img mask).edges.contains
        ⟨⟨RANDOM_INT, "a"⟩, ⟨RANGE_OF_SIZE, "start"⟩⟩ =
        st.generation.shouldRandomizeSeed := by
  rw [idStages_eq]
  cases hm : st.generation.infillMethod == "patchmatch" <;>
  cases hr : st.generation.shouldRandomizeSeed <;>
  simp only [handleSeed, baseGraph, hm, hr, reduceIte] <;>
  exact ⟨rfl, rfl, rfl⟩

/-- Claim C6: the assembler's graph contains exactly one infill node; for
the "tile" method it is the tile variant carrying the configured tile
size, for "patchmatch" the patch-match variant with no extra parameters;
both variants sit at the same node id, every edge leaving the infill node
uses the same output port `image`, and the edge set is identical for the
two methods. -/
theorem c6_infill_strategy (st : RootState) (m img : String)
    (mask : Option String) :
    ((buildWithModel idStages st m img mask).nodes.filter
        (fun p => p.2.isInfillVariant)).length = 1
    ∧ (st.generation.infillMethod = "tile" →
        (buildWithModel idStages st m img mask).findNode INPAINT_INFILL =
          some (Node.infill_tile INPAINT_INFILL true img st.generation.tileSize))
    ∧ (st.generation.infillMethod = "patchmatch" →
        (buildWithModel idStages st m img mask).findNode INPAINT_INFILL =
          some (Node.infill_patchmatch INPAINT_INFILL true img))
    ∧ (buildWithModel idStages st m img mask).edges.all
        (fun e => !(e.source.node_id == INPAINT_INFILL) || e.source.field == "image") = true
    ∧ (buildWithModel idStages (setInfillMethod st "patchmatch") m img mask).edges =
        (buildWithModel idStages (setInfillMethod st "tile") m img mask).edges := by
  refine ⟨?_, ?_, ?_, ?_, ?_⟩
  · rw [idStages_eq]
    cases hm : st.generation.infillMethod == "patchmatch" <;>
    cases hr : st.generation.shouldRandomizeSeed <;>
    simp only [handleSeed, baseGraph, hm, hr, reduceIte] <;> rfl
  · intro h
    have hm : (st.generation.infillMethod == "patchmatch") = false := by
      rw [h]; rfl
    rw [idStages_eq]
    cases hr : st.generation.shouldRandomizeSeed <;>
    simp only [handleSeed, baseGraph, hm, hr, reduceIte] <;> rfl
  · intro h
    have hm : (st.generation.infillMethod == "patchmatch") = true := by
      rw [h]; rfl
    rw [idStages_eq]
    cases hr : st.generation.shouldRandomizeSeed <;>
    simp only [handleSeed, baseGraph, hm, hr, reduceIte] <;> rfl
  · rw [idStages_eq]
    cases hm : st.generation.infillMethod == "patchmatch" <;>
    cases hr : st.generation.shouldRandomizeSeed <;>
    simp only [handleSeed, baseGraph, hm, hr, reduceIte] <;> rfl
  · rw [idStages_eq, idStages_eq]
    cases hr : st.generation.shouldRandomizeSeed <;>
    simp only [handleSeed, baseGraph, setInfillMethod, hr, reduceIte] <;> rfl

/-- Claim C6 (witness): at a concrete tile configuration the infill node
is the tile variant with the configured tile size, and at the same
configuration switched to patch-match it is the patch-match variant. -/
theorem c6_infill_strategy_witness :
    (buildWithModel idStages state0 "sdxl-base-1.0" "init" none).findNode INPAINT_INFILL =
      some (Node.infill_tile INPAINT_INFILL true "init" 32)
    ∧ (buildWithModel idStages (setInfillMethod state0 "patchmatch")
        "sdxl-base-1.0" "init" none).findNode INPAINT_INFILL =
      some (Node.infill_patchmatch INPAINT_INFILL true "init") :=
  ⟨(c6_infill_strategy state0 "sdxl-base-1.0" "init" none).2.1 rfl,
   (c6_infill_strategy (setInfillMethod state0 "patchmatch") "sdxl-base-1.0"
      "init" none).2.2.1 rfl⟩

set_option maxHeartbeats 2000000 in
/-- Claim C7: with recorder stages that tag the graph on invocation, the
node-map tail shows the exact stage order: refiner iff its flag, then VAE
unconditionally, then seed handling, then LoRA, then ControlNet, then the
content filter iff its flag, then the watermarker iff its flag and last. -/
theorem c7_stage_invocation_order (st : RootState) (m img : String)
    (mask : Option String) :
    (buildWithModel recorderStages st m img mask).nodes.map Prod.fst =
      baseNodeIds
      ++ (if st.sdxl.shouldUseSDXLRefiner then ["addSDXLRefinerToGraph"] else [])
      ++ ["addVAEToGraph"]
      ++ (if st.generation.shouldRandomizeSeed then [RANDOM_INT] else [])
      ++ ["addSDXLLoRAsToGraph", "addControlNetToLinearGraph"]
      ++ (if st.system.shouldUseNSFWChecker then ["addNSFWCheckerToGraph"] else [])
      ++ (if st.system.shouldUseWatermarker then ["addWatermarkerToGraph"] else []) := by
  cases hm : st.generation.infillMethod == "patchmatch" <;>
  cases hr : st.generation.shouldRandomizeSeed <;>
  cases hf : st.sdxl.shouldUseSDXLRefiner <;>
  cases hn : st.system.shouldUseNSFWChecker <;>
  cases hw : st.system.shouldUseWatermarker <;>
  simp only [buildWithModel, recorderStages, appendMarker, handleSeed, baseGraph,
    hm, hr, hf, hn, hw, reduceIte] <;> rfl

/-- Claim C8: the graph assembled by the builder's own code (base topology
plus seed wiring) has pairwise-distinct node ids, every edge endpoint
names a node present in the map, and the edge set admits a topological
sort. -/
theorem c8_assembler_graph_invariants (st : RootState) (m img : String)
    (mask : Option String) :
    uniqueIds (buildWithModel idStages st m img mask) = true
    ∧ endpointsOk (buildWithModel idStages st m img mask) = true
    ∧ isAcyclic (buildWithModel idStages st m img mask) = true := by
  rw [idStages_eq]
  cases hr : st.generation.shouldRandomizeSeed <;>
  simp only [uniqueIds, endpointsOk, isAcyclic, assembler_keys, assembler_edges,
    hr, reduceIte] <;>
  exact ⟨by decide, by decide, by decide⟩

/-- Claim C9: the noise node's width and height come from the canvas
bounding box (so the graph is unchanged when only the generic
generation width/height parameters vary) and its `use_cpu` field carries
the CPU-noise flag. -/
theorem c9_noise_uses_bounding_box (st : RootState) (m img : String)
    (mask : Option String) :
    (buildWithModel idStages st m img mask).findNode NOISE =
      some (Node.noise NOISE st.canvas.boundingBoxDimensions.width
        st.canvas.boundingBoxDimensions.height
        st.generation.shouldUseCpuNoise true)
    ∧ (∀ w h : Nat,
        buildWithModel idStages (setGenerationSize st w h) m img mask =
          buildWithModel idStages st m img mask) := by
  constructor
  · rw [idStages_eq]
    cases hm : st.generation.infillMethod == "patchmatch" <;>
    cases hr : st.generation.shouldRandomizeSeed <;>
    simp only [handleSeed, baseGraph, hm, hr, reduceIte, ite_self] <;> rfl
  · intro w h
    rfl

/-- Claim C10: the "use noise settings" override flag has no observable
effect — the builder returns identical results on any two states that
differ only in that flag, because both branches of the `use_cpu`
conditional read the same CPU-noise flag. -/
theorem c10_noise_settings_override_no_effect (st : RootState) (b : Bool)
    (img : String) (mask : Option String) :
    buildCanvasSDXLOutpaintGraph idStages (setUseNoiseSettings st b) img mask =
      buildCanvasSDXLOutpaintGraph idStages st img mask := by
  rw [build_eq_elim, build_eq_elim]
  cases hmod : st.generation.model <;>
  simp only [setUseNoiseSettings, hmod, Option.elim, buildWithModel, idStages,
    baseGraph, handleSeed, ite_self]
